import Mathlib

/-!
Shallow embedding of the maya-verification licensing service.

The server side (server.py, licenses_db.py) is modelled as pure functions over
an explicit relational store; timestamps are UTC seconds as integers, and a
calendar date is the floor of seconds by 86400 (matching Python timedelta.days
and datetime.date arithmetic for timezone-aware UTC datetimes).  The client
side (verifier.py) is modelled with time in deciseconds so that every timing
constant of the source (including BACKOFF = 0.4 s) is an integer; network
outcomes are supplied as input traces.  String fields of a request carry the
result of the str(...) coercion the source applies; pyStrip, splitComma and
pyUpper model str.strip, str.split(",") and str.upper over the character
lists of strings so that the kernel can evaluate them.
-/

namespace Maya

/-- License row (licenses_db.py, class License); expires_at and created_at in UTC seconds. -/
structure License where
  id : Nat
  code : String
  email : String
  created_at : Int
  expires_at : Int
  active : Bool
  deriving DecidableEq, Repr

/-- Device row (licenses_db.py, class LicenseDevice). -/
structure LicenseDevice where
  license_id : Nat
  machine_id : String
  first_seen : Int
  last_seen : Int
  deriving DecidableEq, Repr

/-- The relational store: the licenses and license_devices tables, rows in insertion order. -/
structure Store where
  licenses : List License
  devices : List LicenseDevice
  deriving DecidableEq, Repr

/-- Webhook notification payload (licenses_db.py, notify_license_to_webhook). -/
structure Notif where
  event : String
  email : String
  code : String
  expires_at : Int
  deriving DecidableEq, Repr

/-- Raw environment configuration of the server (server.py lines 218-222 read these
with os.getenv); allowed_tokens stands for the ALLOWED_TOKENS set that config.py
loads, which is out-of-scope glue. -/
structure Env where
  APP_VERSION : Option String
  KILL_SWITCH : Option String
  BLOCKED_MACHINES : Option String
  allowed_tokens : List String
  ADMIN_API_KEY : Option String
  deriving DecidableEq, Repr

/-- Python str.strip with no argument: drop whitespace from both ends.  Stated
over the character list of the string so the kernel can evaluate it. -/
def pyStrip (s : String) : String :=
  ⟨(((s.data.dropWhile Char.isWhitespace).reverse).dropWhile Char.isWhitespace).reverse⟩

/-- Helper of splitComma: accumulates the current field in reverse. -/
def splitCommaAux : List Char → List Char → List String
  | [], acc => [⟨acc.reverse⟩]
  | c :: cs, acc =>
    if c = ',' then ⟨acc.reverse⟩ :: splitCommaAux cs []
    else splitCommaAux cs (c :: acc)

/-- Python str.split(","). -/
def splitComma (s : String) : List String := splitCommaAux s.data []

/-- Python str.upper for the ASCII codes license codes use. -/
def pyUpper (s : String) : String := ⟨s.data.map Char.toUpper⟩

/-- app_version = (os.getenv("APP_VERSION") or "").strip()  (server.py line 218). -/
def envAppVersion (e : Env) : String := pyStrip (e.APP_VERSION.getD "")

/-- kill_switch = (os.getenv("KILL_SWITCH") or "0").strip()  (server.py line 219). -/
def envKillSwitch (e : Env) : String := pyStrip (e.KILL_SWITCH.getD "0")

/-- blocked = [m.strip() for m in (os.getenv("BLOCKED_MACHINES") or "").split(",") if m.strip()]
(server.py lines 221-222). -/
def envBlocked (e : Env) : List String :=
  ((splitComma (e.BLOCKED_MACHINES.getD "")).map pyStrip).filter (fun m => m ≠ "")

/-- The parsed JSON body of a /check request after the str(...) coercions of
server.py lines 214-216 (absent fields coerce to ""). -/
structure ReqData where
  token : String
  machine_id : String
  version : String
  deriving DecidableEq, Repr

/-- The "license" entry added to debug in step 6 of /check (server.py lines 367-371). -/
structure LicenseDebug where
  email : String
  expires_at : Int
  days_left : Int
  deriving DecidableEq, Repr

/-- The "debug" object built at server.py lines 224-231 (license_info is the
"license" key added only on the step-6 allow paths). -/
structure DebugInfo where
  received : ReqData
  APP_VERSION : String
  KILL_SWITCH : String
  BLOCKED_MACHINES : List String
  license_info : Option LicenseDebug
  deriving DecidableEq, Repr

/-- A /check response body. -/
structure CheckResult where
  allow : Bool
  reason : String
  ttl_seconds : Int
  debug : Option DebugInfo
  deriving DecidableEq, Repr

/-- db.query(License).filter(License.code == token).first(). -/
def findLicense (ls : List License) (token : String) : Option License :=
  ls.find? (fun l => l.code == token)

/-- db.query(LicenseDevice).filter(license_id == lid, machine_id == mid).first(). -/
def findDevice (ds : List LicenseDevice) (lid : Nat) (mid : String) : Option LicenseDevice :=
  ds.find? (fun d => d.license_id == lid && d.machine_id == mid)

/-- db.query(LicenseDevice).filter(license_id == lid).count(). -/
def countDevices (ds : List LicenseDevice) (lid : Nat) : Nat :=
  (ds.filter (fun d => d.license_id == lid)).length

/-- Mutation of the row returned by the device .first() query: set last_seen = now
on the first matching row (server.py line 332); the unique constraint keeps at
most one such row in real stores. -/
def updateLastSeen : List LicenseDevice → Nat → String → Int → List LicenseDevice
  | [], _, _, _ => []
  | d :: ds, lid, mid, now =>
    if d.license_id == lid && d.machine_id == mid then { d with last_seen := now } :: ds
    else d :: updateLastSeen ds lid mid now

/-- Mutation of the row returned by the license .first() query: set active = False
on the first row with this code (server.py line 301). -/
def deactivateFirst : List License → String → List License
  | [], _ => []
  | l :: ls, code =>
    if l.code == code then { l with active := false } :: ls
    else l :: deactivateFirst ls code

/-- MAX_DEVICES (server.py line 24). -/
def MAX_DEVICES : Nat := 2

/-- Step 6 of /check: the expiry warning and the final allow responses
(server.py lines 363-387).  days_left is Python timedelta.days, a floor. -/
def finishCheck (lic : License) (now : Int) (data : ReqData)
    (app_version kill_switch : String) (blocked : List String) (st : Store) :
    CheckResult × Store :=
  let days_left := Int.fdiv (lic.expires_at - now) 86400
  let debug : DebugInfo :=
    ⟨data, app_version, kill_switch, blocked, some ⟨lic.email, lic.expires_at, days_left⟩⟩
  if days_left ≤ 7 then (⟨true, "LICENSE_EXPIRES_SOON", 60, some debug⟩, st)
  else (⟨true, "OK", 60, some debug⟩, st)

/-- Step 5 of /check: automatic device registration for a valid license
(server.py lines 310-361), then step 6 via finishCheck. -/
def deviceStage (lic : License) (st : Store) (now : Int) (data : ReqData)
    (app_version kill_switch : String) (blocked : List String)
    (machine_id : String) (debug : DebugInfo) : CheckResult × Store :=
  if machine_id = "" then
    (⟨false, "Missing machine_id. Please contact the māyā team.", 3600, some debug⟩, st)
  else
    match findDevice st.devices lic.id machine_id with
    | some _ =>
      finishCheck lic now data app_version kill_switch blocked
        { st with devices := updateLastSeen st.devices lic.id machine_id now }
    | none =>
      if countDevices st.devices lic.id ≥ MAX_DEVICES then
        (⟨false,
          "This license is already in use on the maximum number of devices (2). If you changed computer, please contact the māyā team at mayahep.team@gmail.com.",
          3600, some debug⟩, st)
      else
        finishCheck lic now data app_version kill_switch blocked
          { st with devices := st.devices ++ [⟨lic.id, machine_id, now, now⟩] }

/-- Step 4 of /check: license lookup and expiry handling for dynamic licenses
(server.py lines 277-308), then step 5 via deviceStage. -/
def licenseStage (st : Store) (now : Int) (data : ReqData)
    (token machine_id app_version kill_switch : String) (blocked : List String)
    (debug : DebugInfo) : CheckResult × Store :=
  match findLicense st.licenses token with
  | none =>
    (⟨false, "Invalid token. Please check your license key or contact the māyā team.",
      3600, some debug⟩, st)
  | some lic =>
    if lic.active = false ∨ now ≥ lic.expires_at then
      let st2 :=
        if lic.active = true then { st with licenses := deactivateFirst st.licenses token }
        else st
      (⟨false, "License expired. Please renew your license key.", 3600, some debug⟩, st2)
    else
      deviceStage lic st now data app_version kill_switch blocked machine_id debug

/-- POST /check (server.py, check): steps 0-3 (kill switch, machine block,
required version, static tokens, missing token), then step 4 via licenseStage.
body = .error msg models an unparseable JSON body, whose exception text
reaches the reason string. -/
def check (env : Env) (st : Store) (now : Int) (body : Except String ReqData) :
    CheckResult × Store :=
  match body with
  | .error e => (⟨false, "BAD_JSON: " ++ e, 5, none⟩, st)
  | .ok data =>
    let token := pyStrip data.token
    let machine_id := pyStrip data.machine_id
    let version := pyStrip data.version
    let app_version := envAppVersion env
    let kill_switch := envKillSwitch env
    let blocked := envBlocked env
    let debug : DebugInfo := ⟨data, app_version, kill_switch, blocked, none⟩
    if kill_switch = "1" then
      (⟨false, "Temporarily disabled by admin.", 30, some debug⟩, st)
    else if machine_id ≠ "" ∧ machine_id ∈ blocked then
      (⟨false, "Machine blocked. Please contact the māyā team.", 3600, some debug⟩, st)
    else if app_version ≠ "" ∧ version ≠ "" ∧ version ≠ app_version then
      (⟨false, "Update required.", 3600, some debug⟩, st)
    else if token ≠ "" ∧ token ∈ env.allowed_tokens then
      (⟨true, "OK", 60, some debug⟩, st)
    else if token = "" then
      (⟨false, "Missing token.", 3600, some debug⟩, st)
    else
      licenseStage st now data token machine_id app_version kill_switch blocked debug

/-- Admin endpoint failure modes (HTTPException status codes 403 / 400 / 404). -/
inductive AdminError
  | forbidden
  | badRequest
  | notFound
  deriving DecidableEq, Repr

/-- require_admin_key (server.py lines 75-78); true when the request may proceed. -/
def require_admin_key (env : Env) (key_from_request : String) : Bool :=
  let admin_key_env := env.ADMIN_API_KEY.getD ""
  if admin_key_env = "" ∨ key_from_request ≠ admin_key_env then false else true

/-- Response body of POST /renew; the isoformat timestamps are kept as seconds. -/
structure RenewResponse where
  code : String
  old_expires_at : Int
  new_expires_at : Int
  deriving DecidableEq, Repr

/-- Mutation of the row returned by the license .first() query in renew_license:
set expires_at = new_expires and active = True on the first row with this code
(server.py lines 130-131). -/
def renewFirst : List License → String → Int → List License
  | [], _, _ => []
  | l :: ls, code, new_expires =>
    if l.code == code then { l with expires_at := new_expires, active := true } :: ls
    else l :: renewFirst ls code new_expires

/-- POST /renew (server.py, renew_license). -/
def renew_license (env : Env) (admin_key : String) (st : Store) (now : Int)
    (license_code : String) : Except AdminError (RenewResponse × Store) :=
  if require_admin_key env admin_key = false then .error .forbidden
  else
    let code := pyUpper (pyStrip license_code)
    if code = "" then .error .badRequest
    else
      match findLicense st.licenses code with
      | none => .error .notFound
      | some lic =>
        let old_expires := lic.expires_at
        let baseline := if old_expires > now then old_expires else now
        let new_expires := baseline + 365 * 86400
        .ok (⟨lic.code, old_expires, new_expires⟩,
          ⟨renewFirst st.licenses code new_expires,
           st.devices.filter (fun d => d.license_id != lic.id)⟩)

/-- Response body of POST /reset_devices. -/
structure ResetResponse where
  ok : Bool
  license_code : String
  removed_devices : Nat
  deriving DecidableEq, Repr

/-- POST /reset_devices (server.py, reset_devices). -/
def reset_devices (env : Env) (admin_key : String) (st : Store)
    (license_code : String) : Except AdminError (ResetResponse × Store) :=
  if require_admin_key env admin_key = false then .error .forbidden
  else
    let code := pyUpper (pyStrip license_code)
    if code = "" then .error .badRequest
    else
      match findLicense st.licenses code with
      | none => .error .notFound
      | some lic =>
        let removed := (st.devices.filter (fun d => d.license_id == lic.id)).length
        .ok (⟨true, lic.code, removed⟩,
          ⟨st.licenses, st.devices.filter (fun d => d.license_id != lic.id)⟩)

/-- Per-license action of scan_licenses_and_notify (licenses_db.py lines 198-223):
the candidate filter (active and expires_at <= cutoff) is folded into the step,
a non-candidate being left untouched with no notification. -/
def scanStep (now seven_days_later cutoff : Int) (lic : License) : License × List Notif :=
  if lic.active = true ∧ lic.expires_at ≤ cutoff then
    if lic.expires_at ≤ now then
      ({ lic with active := false }, [⟨"expired", lic.email, lic.code, lic.expires_at⟩])
    else if Int.fdiv lic.expires_at 86400 = seven_days_later then
      (lic, [⟨"expires_soon", lic.email, lic.code, lic.expires_at⟩])
    else (lic, [])
  else (lic, [])

/-- Result of one scan pass: the mutated store, the notifications sent in order,
and the two counters of the returned dict. -/
structure ScanResult where
  store : Store
  notifs : List Notif
  expires_soon : Nat
  expired : Nat
  deriving DecidableEq, Repr

/-- scan_licenses_and_notify (licenses_db.py lines 173-231).  today is the UTC
date of now as a day number, cutoff the midnight opening day today+8. -/
def scan_licenses_and_notify (st : Store) (now : Int) : ScanResult :=
  let today_utc := Int.fdiv now 86400
  let seven_days_later := today_utc + 7
  let cutoff := (today_utc + 8) * 86400
  let licenses2 := st.licenses.map (fun l => (scanStep now seven_days_later cutoff l).1)
  let notifs := st.licenses.flatMap (fun l => (scanStep now seven_days_later cutoff l).2)
  ⟨⟨licenses2, st.devices⟩, notifs,
   (notifs.filter (fun n => n.event == "expires_soon")).length,
   (notifs.filter (fun n => n.event == "expired")).length⟩

/-- One store-mutating request, for reasoning about operation sequences. -/
inductive Op
  | checkReq (env : Env) (now : Int) (body : Except String ReqData)
  | renewReq (env : Env) (admin_key : String) (now : Int) (license_code : String)
  | resetReq (env : Env) (admin_key : String) (license_code : String)

/-- The store after one request (a failing admin request leaves it unchanged). -/
def applyOp (st : Store) : Op → Store
  | .checkReq env now body => (check env st now body).2
  | .renewReq env k now c =>
    match renew_license env k st now c with
    | .ok r => r.2
    | .error _ => st
  | .resetReq env k c =>
    match reset_devices env k st c with
    | .ok r => r.2
    | .error _ => st

/-- The store after a sequence of requests. -/
def applyOps (st : Store) (ops : List Op) : Store := ops.foldl applyOp st

/-! Client side (verifier.py).  Durations are deciseconds, so CONNECT = 2 s is
20, BACKOFF = 0.4 s is 4, and so on; the monotonic clock is the elapsed
deciseconds since start.  Network outcomes arrive as input traces indexed by
attempt number. -/

/-- One timing mode of verifier.py lines 8-12. -/
structure VerifyCfg where
  CONNECT : Nat
  READ : Nat
  WARMUP_TRIES : Nat
  CHECK_TRIES : Nat
  BACKOFF : Nat
  TOTAL_DEADLINE : Nat
  deriving DecidableEq, Repr

/-- FAST mode (verifier.py line 8), in deciseconds. -/
def FAST : VerifyCfg := ⟨20, 30, 1, 1, 4, 60⟩

/-- BALANCED mode (verifier.py line 10), in deciseconds. -/
def BALANCED : VerifyCfg := ⟨30, 50, 2, 2, 8, 120⟩

/-- RENDER_FRIENDLY mode (verifier.py line 12), in deciseconds. -/
def RENDER_FRIENDLY : VerifyCfg := ⟨40, 80, 3, 2, 11, 200⟩

/-- _deadline_remaining (verifier.py lines 26-27); Nat subtraction is the
max(0.0, ...) clamp. -/
def deadline_remaining (cfg : VerifyCfg) (elapsed : Nat) : Nat :=
  cfg.TOTAL_DEADLINE - elapsed

/-- Outcome of one GET /health attempt: whether any HTTP response came back
(even a 404 counts) and how long the call took. -/
structure HealthAttempt where
  responded : Bool
  dur : Nat
  deriving DecidableEq, Repr

/-- Outcome of one POST /check attempt as _post_check distinguishes them
(verifier.py lines 155-174). -/
inductive PostResult
  | netError (msg : String)
  | httpError (status : Nat)
  | badJson
  | jsonOk (allow : Bool) (reason : String) (ttl : Int)
  deriving DecidableEq, Repr

/-- One POST /check attempt with its wall-clock duration in deciseconds. -/
structure PostAttempt where
  result : PostResult
  dur : Nat
  deriving DecidableEq, Repr

/-- The verdict triple _post_check returns for each outcome. -/
def post_check_verdict : PostResult → Bool × String × Int
  | .netError msg => (false, "Network error: " ++ msg, 5)
  | .httpError s => (false, "Server error: " ++ toString s, 5)
  | .badJson => (false, "Bad JSON from server.", 5)
  | .jsonOk a r t => (a, r, t)

/-- Whether an attempt was structurally successful: HTTP 200 with parseable JSON. -/
def isStructOk : PostResult → Bool
  | .jsonOk _ _ _ => true
  | _ => false

/-- _warmup (verifier.py lines 138-152): fuel counts remaining tries, i the try
index for the exponential backoff; returns the elapsed clock afterwards. -/
def warmupLoop (cfg : VerifyCfg) (tr : Nat → HealthAttempt) :
    Nat → Nat → Nat → Nat
  | 0, _, elapsed => elapsed
  | fuel + 1, i, elapsed =>
    if deadline_remaining cfg elapsed = 0 then elapsed
    else
      let a := tr i
      let e2 := elapsed + a.dur
      if a.responded = true then e2
      else warmupLoop cfg tr fuel (i + 1)
        (e2 + min (cfg.BACKOFF * 2 ^ i) (deadline_remaining cfg e2))

/-- _warmup started at clock 0. -/
def warmup (cfg : VerifyCfg) (tr : Nat → HealthAttempt) : Nat :=
  warmupLoop cfg tr cfg.WARMUP_TRIES 0 0

/-- The code after the retry loop of check_online (verifier.py lines 197-200). -/
def finishVerdict (cfg : VerifyCfg) (elapsed : Nat) (last_reason : String)
    (last_ttl : Int) : (Bool × String × Int) × Nat :=
  if deadline_remaining cfg elapsed = 0 then
    ((false, "Timed out after ~" ++ toString (cfg.TOTAL_DEADLINE / 10) ++ "s", 5), elapsed)
  else ((false, last_reason, last_ttl), elapsed)

/-- The /check retry loop of check_online (verifier.py lines 186-195), returning
the verdict and the elapsed clock. -/
def checkLoop (cfg : VerifyCfg) (tr : Nat → PostAttempt) :
    Nat → Nat → Nat → String → Int → (Bool × String × Int) × Nat
  | 0, _, elapsed, lr, lt => finishVerdict cfg elapsed lr lt
  | fuel + 1, i, elapsed, lr, lt =>
    if deadline_remaining cfg elapsed = 0 then finishVerdict cfg elapsed lr lt
    else
      let a := tr i
      let e2 := elapsed + a.dur
      let v := post_check_verdict a.result
      if v.1 = true then (v, e2)
      else checkLoop cfg tr fuel (i + 1)
        (e2 + min (cfg.BACKOFF * 2 ^ i) (deadline_remaining cfg e2)) v.2.1 v.2.2

/-- check_online (verifier.py lines 177-200): warm-up, then the retry loop with
last_reason, last_ttl = "Timeout", 5. -/
def check_online (cfg : VerifyCfg) (wtr : Nat → HealthAttempt)
    (ctr : Nat → PostAttempt) : (Bool × String × Int) × Nat :=
  checkLoop cfg ctr cfg.CHECK_TRIES 0 (warmup cfg wtr) "Timeout" 5

/-! Concrete scenarios used by counterexamples and witnesses. -/

/-- Environment with no configuration at all. -/
def envPlain : Env := ⟨none, none, none, [], none⟩

/-- Environment with a required APP_VERSION and one workshop token. -/
def envC2 : Env := ⟨some "1.0.0", none, none, ["WORKSHOP_2025"], none⟩

/-- A /check body whose version field is empty (a caller that sent no version). -/
def dataC2 : ReqData := ⟨"WORKSHOP_2025", "m1", ""⟩

/-- A license that expires seven and a half days after time 0. -/
def licC3 : License := ⟨1, "AAAA-BBBB-CCCC", "a@b.com", 0, 648000, true⟩

/-- Store holding licC3 with machine m1 already registered. -/
def stC3 : Store := ⟨[licC3], [⟨1, "m1", 0, 0⟩]⟩

/-- Environment whose only configuration is the admin key K. -/
def envAdm : Env := ⟨none, none, none, [], some "K"⟩

/-- An expired license already marked inactive. -/
def licC9 : License := ⟨1, "AAAA-BBBB-CCCC", "a@b.com", 0, 500, false⟩

/-- Store holding licC9 with one stale device. -/
def stC9 : Store := ⟨[licC9], [⟨1, "mOld", 0, 0⟩]⟩

/-- The store renew_license produces from stC9 at time 1000. -/
def stC9r : Store := ⟨[⟨1, "AAAA-BBBB-CCCC", "a@b.com", 0, 31537000, true⟩], []⟩

/-- A license valid for 100 days used by the quota scenario. -/
def licQ : License := ⟨1, "QQQQ-QQQQ-QQQQ", "q@e.com", 0, 8640000, true⟩

/-- Fresh store holding licQ with no devices. -/
def stQ0 : Store := ⟨[licQ], []⟩

/-- A /check body for licQ from machine m. -/
def dataQ (m : String) : ReqData := ⟨"QQQQ-QQQQ-QQQQ", m, ""⟩

/-- The store after machine m1 checked in under licQ. -/
def stQ1 : Store := (check envPlain stQ0 0 (.ok (dataQ "m1"))).2

/-- The store after machines m1 and m2 checked in under licQ. -/
def stQ2 : Store := (check envPlain stQ1 0 (.ok (dataQ "m2"))).2

/-- An active license already past its expiry at scan time 950400. -/
def licE : License := ⟨1, "EEEE", "e@e.com", 0, 900000, true⟩

/-- An active license whose expiry date is exactly day 18 = day 11 + 7. -/
def licS : License := ⟨2, "SSSS", "s@e.com", 0, 1555300, true⟩

/-- Store scanned in the expiry-scan scenario. -/
def stC7 : Store := ⟨[licE, licS], []⟩

/-- Warm-up trace of a healthy server: responds in half a second. -/
def wtrC1 : Nat → HealthAttempt := fun _ => ⟨true, 5⟩

/-- Check trace whose first attempt is a clean deny and whose second allows. -/
def ctrC1 : Nat → PostAttempt := fun i =>
  if i = 0 then ⟨.jsonOk false "Denied by server" 3600, 10⟩
  else ⟨.jsonOk true "OK" 60, 10⟩

/-- Check trace that always answers allow after one second. -/
def ctrOK : Nat → PostAttempt := fun _ => ⟨.jsonOk true "OK" 60, 10⟩

/-- Warm-up trace of a dead server: every ping times out after five seconds. -/
def wtrC8 : Nat → HealthAttempt := fun _ => ⟨false, 50⟩

/-- Check trace of a dead server: every attempt raises after five seconds. -/
def ctrC8 : Nat → PostAttempt := fun _ => ⟨.netError "connection refused", 50⟩

end Maya

namespace Maya

/-- finishCheck never mutates the store it is handed. -/
theorem finishCheck_snd (lic : License) (now : Int) (data : ReqData)
    (av ks : String) (bl : List String) (st : Store) :
    (finishCheck lic now data av ks bl st).2 = st := by
  unfold finishCheck
  dsimp only
  split <;> rfl

/-- finishCheck always allows, warning exactly when strictly less than 8 days
remain (the floor of timedelta.days makes days_left ≤ 7 equivalent to
expires_at - now < 8 days). -/
theorem finishCheck_spec (lic : License) (now : Int) (data : ReqData)
    (av ks : String) (bl : List String) (st : Store) :
    (finishCheck lic now data av ks bl st).1.allow = true ∧
    (lic.expires_at - now < 8 * 86400 →
      (finishCheck lic now data av ks bl st).1.reason = "LICENSE_EXPIRES_SOON") ∧
    (8 * 86400 ≤ lic.expires_at - now →
      (finishCheck lic now data av ks bl st).1.reason = "OK") := by
  unfold finishCheck
  dsimp only
  have hiff : Int.fdiv (lic.expires_at - now) 86400 ≤ 7 ↔
      lic.expires_at - now < 8 * 86400 := by
    rw [Int.fdiv_eq_ediv _ (by omega : (0 : Int) ≤ 86400)]
    omega
  by_cases h : Int.fdiv (lic.expires_at - now) 86400 ≤ 7
  · rw [if_pos h]
    exact ⟨rfl, fun _ => rfl, fun hc => absurd (hiff.mp h) (by omega)⟩
  · rw [if_neg h]
    exact ⟨rfl, fun hc => absurd (hiff.mpr hc) h, fun _ => rfl⟩

/-- When the kill switch, machine block, version gate, static tokens and the
missing-token guard all pass, /check reduces to the license stage. -/
theorem check_eq_licenseStage (env : Env) (st : Store) (now : Int) (data : ReqData)
    (hk : envKillSwitch env ≠ "1")
    (hb : ¬(pyStrip data.machine_id ≠ "" ∧ pyStrip data.machine_id ∈ envBlocked env))
    (hv : ¬(envAppVersion env ≠ "" ∧ pyStrip data.version ≠ "" ∧
        pyStrip data.version ≠ envAppVersion env))
    (ha : ¬(pyStrip data.token ≠ "" ∧ pyStrip data.token ∈ env.allowed_tokens))
    (hte : pyStrip data.token ≠ "") :
    check env st now (.ok data) =
      licenseStage st now data (pyStrip data.token) (pyStrip data.machine_id)
        (envAppVersion env) (envKillSwitch env) (envBlocked env)
        ⟨data, envAppVersion env, envKillSwitch env, envBlocked env, none⟩ := by
  unfold check
  dsimp only
  rw [if_neg hk, if_neg hb, if_neg hv, if_neg ha, if_neg hte]

/-- An active, unexpired license found by the lookup sends the license stage to
the device stage. -/
theorem licenseStage_valid (st : Store) (now : Int) (data : ReqData)
    (token mid av ks : String) (bl : List String) (dbg : DebugInfo) (lic : License)
    (hfl : findLicense st.licenses token = some lic)
    (hact : lic.active = true) (hexp : now < lic.expires_at) :
    licenseStage st now data token mid av ks bl dbg =
      deviceStage lic st now data av ks bl mid dbg := by
  unfold licenseStage
  rw [hfl]
  dsimp only
  rw [if_neg]
  rintro (h | h)
  · rw [hact] at h; cases h
  · omega

/-- A known machine goes to step 6 after the last_seen update. -/
theorem deviceStage_known (lic : License) (st : Store) (now : Int) (data : ReqData)
    (av ks : String) (bl : List String) (mid : String) (dbg : DebugInfo)
    (dev : LicenseDevice)
    (hmid : mid ≠ "")
    (hfd : findDevice st.devices lic.id mid = some dev) :
    deviceStage lic st now data av ks bl mid dbg =
      finishCheck lic now data av ks bl
        { st with devices := updateLastSeen st.devices lic.id mid now } := by
  unfold deviceStage
  rw [if_neg hmid, hfd]

/-- A new machine under quota is registered and goes to step 6. -/
theorem deviceStage_new (lic : License) (st : Store) (now : Int) (data : ReqData)
    (av ks : String) (bl : List String) (mid : String) (dbg : DebugInfo)
    (hmid : mid ≠ "")
    (hfd : findDevice st.devices lic.id mid = none)
    (hq : countDevices st.devices lic.id < MAX_DEVICES) :
    deviceStage lic st now data av ks bl mid dbg =
      finishCheck lic now data av ks bl
        { st with devices := st.devices ++ [⟨lic.id, mid, now, now⟩] } := by
  unfold deviceStage
  rw [if_neg hmid, hfd]
  dsimp only
  rw [if_neg (by omega)]

/-- A new machine over quota is denied and nothing is written. -/
theorem deviceStage_quota (lic : License) (st : Store) (now : Int) (data : ReqData)
    (av ks : String) (bl : List String) (mid : String) (dbg : DebugInfo)
    (hmid : mid ≠ "")
    (hfd : findDevice st.devices lic.id mid = none)
    (hq : countDevices st.devices lic.id ≥ MAX_DEVICES) :
    deviceStage lic st now data av ks bl mid dbg =
      (⟨false,
        "This license is already in use on the maximum number of devices (2). If you changed computer, please contact the māyā team at mayahep.team@gmail.com.",
        3600, some dbg⟩, st) := by
  unfold deviceStage
  rw [if_neg hmid, hfd]
  dsimp only
  rw [if_pos hq]

/-- Every deviceStage outcome keeps the first four debug fields it was handed. -/
theorem deviceStage_debug_map (lic : License) (st : Store) (now : Int) (data : ReqData)
    (av ks : String) (bl : List String) (mid : String) (li : Option LicenseDebug) :
    (deviceStage lic st now data av ks bl mid ⟨data, av, ks, bl, li⟩).1.debug.map
        (fun d => (d.received, d.APP_VERSION, d.KILL_SWITCH, d.BLOCKED_MACHINES))
      = some (data, av, ks, bl) := by
  unfold deviceStage finishCheck
  dsimp only
  repeat' split
  all_goals rfl

/-- Every licenseStage outcome keeps the first four debug fields it was handed. -/
theorem licenseStage_debug_map (st : Store) (now : Int) (data : ReqData)
    (token mid av ks : String) (bl : List String) (li : Option LicenseDebug) :
    (licenseStage st now data token mid av ks bl ⟨data, av, ks, bl, li⟩).1.debug.map
        (fun d => (d.received, d.APP_VERSION, d.KILL_SWITCH, d.BLOCKED_MACHINES))
      = some (data, av, ks, bl) := by
  unfold licenseStage
  dsimp only
  repeat' split
  all_goals first
    | rfl
    | exact deviceStage_debug_map _ _ _ _ _ _ _ _ _

/-- C10: every /check verdict branch other than the unparseable-JSON one carries
a debug object echoing the full request body and the environment-derived
configuration (APP_VERSION, KILL_SWITCH and the whole BLOCKED_MACHINES list)
back to the caller. -/
theorem c10_debug_echo (env : Env) (st : Store) (now : Int) (data : ReqData) :
    (check env st now (.ok data)).1.debug.map
        (fun d => (d.received, d.APP_VERSION, d.KILL_SWITCH, d.BLOCKED_MACHINES))
      = some (data, envAppVersion env, envKillSwitch env, envBlocked env) := by
  unfold check
  dsimp only
  repeat' split
  all_goals first
    | rfl
    | exact licenseStage_debug_map _ _ _ _ _ _ _ _ _

/-- C2 counterexample: APP_VERSION is configured as 1.0.0 and the caller sends
an empty (absent) version, which differs from 1.0.0, yet the request is not
denied with an update-required verdict: a valid workshop token is allowed with
reason OK, because the version gate of server.py line 258 is skipped whenever
the caller version is empty. -/
theorem c2_counterexample :
    envAppVersion envC2 = "1.0.0" ∧ pyStrip dataC2.version = "" ∧
    pyStrip dataC2.version ≠ envAppVersion envC2 ∧
    (check envC2 ⟨[], []⟩ 0 (.ok dataC2)).1.allow = true ∧
    (check envC2 ⟨[], []⟩ 0 (.ok dataC2)).1.reason = "OK" := by decide

/-- C2 (amended): when a required app version is configured, the caller version
is non-empty, and the two differ (and neither the kill switch nor a machine
block fired), /check denies with reason Update required. and TTL 3600; an
empty caller version bypasses the version gate entirely. -/
theorem c2_amended_version_gate (env : Env) (st : Store) (now : Int) (data : ReqData)
    (hk : envKillSwitch env ≠ "1")
    (hb : ¬(pyStrip data.machine_id ≠ "" ∧ pyStrip data.machine_id ∈ envBlocked env))
    (hav : envAppVersion env ≠ "")
    (hv : pyStrip data.version ≠ "")
    (hne : pyStrip data.version ≠ envAppVersion env) :
    (check env st now (.ok data)).1 =
      ⟨false, "Update required.", 3600,
        some ⟨data, envAppVersion env, envKillSwitch env, envBlocked env, none⟩⟩ ∧
    (check env st now (.ok data)).2 = st := by
  unfold check
  dsimp only
  rw [if_neg hk, if_neg hb, if_pos ⟨hav, hv, hne⟩]
  exact ⟨rfl, rfl⟩

/-- Witness for c2_amended_version_gate at a concrete caller with version 0.9.0. -/
theorem c2_witness :
    (check envC2 ⟨[], []⟩ 0 (.ok ⟨"T", "m1", "0.9.0"⟩)).1 =
      ⟨false, "Update required.", 3600,
        some ⟨⟨"T", "m1", "0.9.0"⟩, envAppVersion envC2, envKillSwitch envC2,
          envBlocked envC2, none⟩⟩ ∧
    (check envC2 ⟨[], []⟩ 0 (.ok ⟨"T", "m1", "0.9.0"⟩)).2 = (⟨[], []⟩ : Store) :=
  c2_amended_version_gate envC2 ⟨[], []⟩ 0 ⟨"T", "m1", "0.9.0"⟩
    (by decide) (by decide) (by decide) (by decide) (by decide)

/-- C3 counterexample: a license expiring in seven and a half days (648000
seconds, which is more than 7 days) is answered with the expires-soon reason,
not with OK as the claim requires for expires_at - now > 7 days, because
timedelta.days floors 7.5 days to 7. -/
theorem c3_counterexample :
    licC3.expires_at - 0 > 7 * 86400 ∧
    (check envPlain stC3 0 (.ok ⟨"AAAA-BBBB-CCCC", "m1", ""⟩)).1.allow = true ∧
    (check envPlain stC3 0 (.ok ⟨"AAAA-BBBB-CCCC", "m1", ""⟩)).1.reason
      = "LICENSE_EXPIRES_SOON" := by decide

/-- C3 (amended): on the allowed device-binding path of an active, unexpired
license, the verdict is allow with the expires-soon reason exactly when
expires_at - now is strictly less than 8 days (timedelta.days floors, so
days_left ≤ 7 means under 8 full days), and with reason OK when at least 8
days remain; the claimed boundary of 7 days only matches on whole-day
differences. -/
theorem c3_amended_expiry_warning_boundary (env : Env) (st : Store) (now : Int)
    (data : ReqData) (lic : License)
    (hk : envKillSwitch env ≠ "1")
    (hb : ¬(pyStrip data.machine_id ≠ "" ∧ pyStrip data.machine_id ∈ envBlocked env))
    (hv : ¬(envAppVersion env ≠ "" ∧ pyStrip data.version ≠ "" ∧
        pyStrip data.version ≠ envAppVersion env))
    (ha : ¬(pyStrip data.token ≠ "" ∧ pyStrip data.token ∈ env.allowed_tokens))
    (hte : pyStrip data.token ≠ "")
    (hfl : findLicense st.licenses (pyStrip data.token) = some lic)
    (hact : lic.active = true)
    (hexp : now < lic.expires_at)
    (hmid : pyStrip data.machine_id ≠ "")
    (hdev : (∃ dev, findDevice st.devices lic.id (pyStrip data.machine_id) = some dev) ∨
        (findDevice st.devices lic.id (pyStrip data.machine_id) = none ∧
          countDevices st.devices lic.id < MAX_DEVICES)) :
    (check env st now (.ok data)).1.allow = true ∧
    (lic.expires_at - now < 8 * 86400 →
      (check env st now (.ok data)).1.reason = "LICENSE_EXPIRES_SOON") ∧
    (8 * 86400 ≤ lic.expires_at - now →
      (check env st now (.ok data)).1.reason = "OK") := by
  rw [check_eq_licenseStage env st now data hk hb hv ha hte,
    licenseStage_valid st now data _ _ _ _ _ _ lic hfl hact hexp]
  rcases hdev with ⟨dev, hfd⟩ | ⟨hfd, hq⟩
  · rw [deviceStage_known lic st now data _ _ _ _ _ dev hmid hfd]
    exact finishCheck_spec lic now data _ _ _ _
  · rw [deviceStage_new lic st now data _ _ _ _ _ hmid hfd hq]
    exact finishCheck_spec lic now data _ _ _ _

/-- Witness for c3_amended_expiry_warning_boundary on the concrete store stC3. -/
theorem c3_witness :
    (check envPlain stC3 0 (.ok ⟨"AAAA-BBBB-CCCC", "m1", ""⟩)).1.allow = true ∧
    (licC3.expires_at - 0 < 8 * 86400 →
      (check envPlain stC3 0 (.ok ⟨"AAAA-BBBB-CCCC", "m1", ""⟩)).1.reason
        = "LICENSE_EXPIRES_SOON") ∧
    (8 * 86400 ≤ licC3.expires_at - 0 →
      (check envPlain stC3 0 (.ok ⟨"AAAA-BBBB-CCCC", "m1", ""⟩)).1.reason = "OK") :=
  c3_amended_expiry_warning_boundary envPlain stC3 0 ⟨"AAAA-BBBB-CCCC", "m1", ""⟩ licC3
    (by decide) (by decide) (by decide) (by decide) (by decide) (by decide)
    (by decide) (by decide) (by decide) (Or.inl ⟨⟨1, "m1", 0, 0⟩, by decide⟩)

/-- updateLastSeen changes no field other than last_seen: the key projection of
the device list is untouched. -/
theorem updateLastSeen_map_key (ds : List LicenseDevice) (lid : Nat) (mid : String)
    (now : Int) :
    (updateLastSeen ds lid mid now).map (fun d => (d.license_id, d.machine_id, d.first_seen))
      = ds.map (fun d => (d.license_id, d.machine_id, d.first_seen)) := by
  induction ds with
  | nil => rfl
  | cons d ds ih =>
    unfold updateLastSeen
    split
    · rfl
    · simp only [List.map_cons, ih]

/-- updateLastSeen never changes the number of device rows. -/
theorem updateLastSeen_length (ds : List LicenseDevice) (lid : Nat) (mid : String)
    (now : Int) :
    (updateLastSeen ds lid mid now).length = ds.length := by
  induction ds with
  | nil => rfl
  | cons d ds ih =>
    unfold updateLastSeen
    split
    · rfl
    · simp only [List.length_cons, ih]

/-- updateLastSeen never changes the device count of any license. -/
theorem countDevices_updateLastSeen (ds : List LicenseDevice) (lid : Nat) (mid : String)
    (now : Int) (l : Nat) :
    countDevices (updateLastSeen ds lid mid now) l = countDevices ds l := by
  induction ds with
  | nil => rfl
  | cons d ds ih =>
    unfold updateLastSeen
    split
    · unfold countDevices
      simp only [List.filter_cons]
      split <;> simp
    · unfold countDevices at ih ⊢
      simp only [List.filter_cons]
      split
      · simp only [List.length_cons, ih]
      · exact ih

/-- C6: a /check from a machine already registered for a valid license allows,
mutates the store only by setting that device row's last_seen to now (the key
fields of every device row, the row count, every per-license device count, and
the license table are all unchanged). -/
theorem c6_repeat_checkin_idempotent (env : Env) (st : Store) (now : Int)
    (data : ReqData) (lic : License) (dev : LicenseDevice)
    (hk : envKillSwitch env ≠ "1")
    (hb : ¬(pyStrip data.machine_id ≠ "" ∧ pyStrip data.machine_id ∈ envBlocked env))
    (hv : ¬(envAppVersion env ≠ "" ∧ pyStrip data.version ≠ "" ∧
        pyStrip data.version ≠ envAppVersion env))
    (ha : ¬(pyStrip data.token ≠ "" ∧ pyStrip data.token ∈ env.allowed_tokens))
    (hte : pyStrip data.token ≠ "")
    (hfl : findLicense st.licenses (pyStrip data.token) = some lic)
    (hact : lic.active = true)
    (hexp : now < lic.expires_at)
    (hmid : pyStrip data.machine_id ≠ "")
    (hfd : findDevice st.devices lic.id (pyStrip data.machine_id) = some dev) :
    (check env st now (.ok data)).1.allow = true ∧
    (check env st now (.ok data)).2 =
      ⟨st.licenses, updateLastSeen st.devices lic.id (pyStrip data.machine_id) now⟩ ∧
    (updateLastSeen st.devices lic.id (pyStrip data.machine_id) now).map
        (fun d => (d.license_id, d.machine_id, d.first_seen))
      = st.devices.map (fun d => (d.license_id, d.machine_id, d.first_seen)) ∧
    (updateLastSeen st.devices lic.id (pyStrip data.machine_id) now).length
      = st.devices.length ∧
    (∀ l, countDevices (updateLastSeen st.devices lic.id (pyStrip data.machine_id) now) l
      = countDevices st.devices l) := by
  rw [check_eq_licenseStage env st now data hk hb hv ha hte,
    licenseStage_valid st now data _ _ _ _ _ _ lic hfl hact hexp,
    deviceStage_known lic st now data _ _ _ _ _ dev hmid hfd]
  refine ⟨(finishCheck_spec lic now data _ _ _ _).1, ?_,
    updateLastSeen_map_key st.devices lic.id (pyStrip data.machine_id) now,
    updateLastSeen_length st.devices lic.id (pyStrip data.machine_id) now,
    fun l => countDevices_updateLastSeen st.devices lic.id (pyStrip data.machine_id) now l⟩
  rw [finishCheck_snd]

/-- Witness for c6_repeat_checkin_idempotent on the concrete store stC3. -/
theorem c6_witness :
    (check envPlain stC3 0 (.ok ⟨"AAAA-BBBB-CCCC", "m1", ""⟩)).1.allow = true ∧
    (check envPlain stC3 0 (.ok ⟨"AAAA-BBBB-CCCC", "m1", ""⟩)).2 =
      ⟨stC3.licenses, updateLastSeen stC3.devices licC3.id (pyStrip "m1") 0⟩ ∧
    (updateLastSeen stC3.devices licC3.id (pyStrip "m1") 0).map
        (fun d => (d.license_id, d.machine_id, d.first_seen))
      = stC3.devices.map (fun d => (d.license_id, d.machine_id, d.first_seen)) ∧
    (updateLastSeen stC3.devices licC3.id (pyStrip "m1") 0).length
      = stC3.devices.length ∧
    (∀ l, countDevices (updateLastSeen stC3.devices licC3.id (pyStrip "m1") 0) l
      = countDevices stC3.devices l) :=
  c6_repeat_checkin_idempotent envPlain stC3 0 ⟨"AAAA-BBBB-CCCC", "m1", ""⟩ licC3
    ⟨1, "m1", 0, 0⟩ (by decide) (by decide) (by decide) (by decide) (by decide)
    (by decide) (by decide) (by decide) (by decide) (by decide)

/-- The baseline comparison of renew_license is the max of now and the old expiry. -/
theorem ifGt_eq_max (a b : Int) : (if b > a then b else a) = max a b := by
  rcases le_total a b with h | h
  · rw [max_eq_right h]; split <;> omega
  · rw [max_eq_left h]; split <;> omega

/-- Deleting every device row of a license leaves it with no selectable rows. -/
theorem filter_ne_then_eq_nil (ds : List LicenseDevice) (lid : Nat) :
    (ds.filter (fun d => d.license_id != lid)).filter (fun d => d.license_id == lid) = [] := by
  induction ds with
  | nil => rfl
  | cons d ds ih =>
    by_cases h : d.license_id = lid
    · simp [List.filter_cons, h, ih]
    · simp [List.filter_cons, h, ih]

/-- Deleting every device row of a license brings its device count to zero. -/
theorem countDevices_filter_ne_self (ds : List LicenseDevice) (lid : Nat) :
    countDevices (ds.filter (fun d => d.license_id != lid)) lid = 0 := by
  unfold countDevices
  rw [filter_ne_then_eq_nil]
  rfl

/-- After all rows of a license are deleted, no device of it can be found. -/
theorem findDevice_filter_ne (ds : List LicenseDevice) (lid : Nat) (mid : String) :
    findDevice (ds.filter (fun d => d.license_id != lid)) lid mid = none := by
  unfold findDevice
  induction ds with
  | nil => rfl
  | cons d ds ih =>
    by_cases h : d.license_id = lid
    · simpa [List.filter_cons, h] using ih
    · simpa [List.filter_cons, List.find?_cons, h] using ih

/-- renewFirst updates exactly the row the lookup found. -/
theorem findLicense_renewFirst (ls : List License) (code : String) (v : Int) (lic : License)
    (hfl : findLicense ls code = some lic) :
    findLicense (renewFirst ls code v) code =
      some { lic with expires_at := v, active := true } := by
  induction ls with
  | nil => simp [findLicense] at hfl
  | cons l ls ih =>
    unfold renewFirst
    by_cases h : (l.code == code) = true
    · rw [if_pos h]
      unfold findLicense at hfl ⊢
      simp only [List.find?_cons, h] at hfl ⊢
      injection hfl with hfl
      subst hfl
      rfl
    · rw [if_neg h]
      rw [Bool.not_eq_true] at h
      unfold findLicense at hfl ⊢
      simp only [List.find?_cons, h] at hfl ⊢
      exact ih hfl

/-- Closed form of a successful renew_license call. -/
theorem renew_license_eq (env : Env) (admin : String) (st : Store) (now : Int)
    (license_code : String) (lic : License)
    (hadm : require_admin_key env admin = true)
    (hne : pyUpper (pyStrip license_code) ≠ "")
    (hfl : findLicense st.licenses (pyUpper (pyStrip license_code)) = some lic) :
    renew_license env admin st now license_code =
      .ok (⟨lic.code, lic.expires_at, max now lic.expires_at + 365 * 86400⟩,
        ⟨renewFirst st.licenses (pyUpper (pyStrip license_code))
            (max now lic.expires_at + 365 * 86400),
          st.devices.filter (fun d => d.license_id != lic.id)⟩) := by
  unfold renew_license
  rw [hadm, if_neg (by decide)]
  dsimp only
  rw [if_neg hne, hfl]
  dsimp only
  rw [ifGt_eq_max now lic.expires_at]

/-- C4: renewing an existing license deletes all of its device rows (its
device count becomes 0), extends expires_at to exactly 365 days after the
later of now and the old expiry, stores that new expiry on the license, and
returns both the old and the new expiry. -/
theorem c4_renew_resets_devices_and_extends (env : Env) (admin : String) (st : Store)
    (now : Int) (license_code : String) (lic : License)
    (hadm : require_admin_key env admin = true)
    (hne : pyUpper (pyStrip license_code) ≠ "")
    (hfl : findLicense st.licenses (pyUpper (pyStrip license_code)) = some lic) :
    ∃ st2 : Store,
      renew_license env admin st now license_code =
        .ok (⟨lic.code, lic.expires_at, max now lic.expires_at + 365 * 86400⟩, st2) ∧
      countDevices st2.devices lic.id = 0 ∧
      findLicense st2.licenses (pyUpper (pyStrip license_code)) =
        some { lic with expires_at := max now lic.expires_at + 365 * 86400, active := true } := by
  refine ⟨_, renew_license_eq env admin st now license_code lic hadm hne hfl, ?_, ?_⟩
  · exact countDevices_filter_ne_self st.devices lic.id
  · exact findLicense_renewFirst st.licenses _ _ lic hfl

/-- Witness for c4_renew_resets_devices_and_extends on the concrete store stC9;
the lowercase input code also exercises the strip and upper normalisation. -/
theorem c4_witness :
    ∃ st2 : Store,
      renew_license envAdm "K" stC9 1000 "aaaa-bbbb-cccc" =
        .ok (⟨licC9.code, licC9.expires_at, max 1000 licC9.expires_at + 365 * 86400⟩, st2) ∧
      countDevices st2.devices licC9.id = 0 ∧
      findLicense st2.licenses (pyUpper (pyStrip "aaaa-bbbb-cccc")) =
        some { licC9 with expires_at := max 1000 licC9.expires_at + 365 * 86400, active := true } :=
  c4_renew_resets_devices_and_extends envAdm "K" stC9 1000 "aaaa-bbbb-cccc" licC9
    (by decide) (by decide) (by decide)

/-- C9: renewing a license sets active back to true, so even a previously
expired and deactivated license is allowed again by a subsequent /check (on a
fresh machine, within the renewed validity window) with no separate
reactivation step. -/
theorem c9_renew_reactivates (env : Env) (admin : String) (st : Store) (now_r : Int)
    (license_code : String) (lic : License) (env2 : Env) (now2 : Int) (data : ReqData)
    (resp : RenewResponse) (st2 : Store)
    (hadm : require_admin_key env admin = true)
    (hne : pyUpper (pyStrip license_code) ≠ "")
    (hfl : findLicense st.licenses (pyUpper (pyStrip license_code)) = some lic)
    (hren : renew_license env admin st now_r license_code = .ok (resp, st2))
    (hk : envKillSwitch env2 ≠ "1")
    (hb : ¬(pyStrip data.machine_id ≠ "" ∧ pyStrip data.machine_id ∈ envBlocked env2))
    (hv : ¬(envAppVersion env2 ≠ "" ∧ pyStrip data.version ≠ "" ∧
        pyStrip data.version ≠ envAppVersion env2))
    (ha : ¬(pyStrip data.token ≠ "" ∧ pyStrip data.token ∈ env2.allowed_tokens))
    (htok : pyStrip data.token = pyUpper (pyStrip license_code))
    (hmid : pyStrip data.machine_id ≠ "")
    (htime : now2 < max now_r lic.expires_at + 365 * 86400) :
    (check env2 st2 now2 (.ok data)).1.allow = true := by
  rw [renew_license_eq env admin st now_r license_code lic hadm hne hfl] at hren
  injection hren with hpair
  injection hpair with hresp hst
  subst hst
  have hte : pyStrip data.token ≠ "" := by rw [htok]; exact hne
  rw [check_eq_licenseStage env2 _ now2 data hk hb hv ha hte]
  have hfl2 : findLicense (renewFirst st.licenses (pyUpper (pyStrip license_code))
      (max now_r lic.expires_at + 365 * 86400)) (pyStrip data.token) =
      some { lic with expires_at := max now_r lic.expires_at + 365 * 86400, active := true } := by
    rw [htok]
    exact findLicense_renewFirst st.licenses _ _ lic hfl
  rw [licenseStage_valid _ now2 data _ _ _ _ _ _ _ hfl2 rfl htime]
  rw [deviceStage_new _ _ now2 data _ _ _ _ _ hmid
    (findDevice_filter_ne st.devices lic.id (pyStrip data.machine_id))
    (by rw [countDevices_filter_ne_self]; decide)]
  exact (finishCheck_spec _ now2 data _ _ _ _).1

/-- Witness for c9_renew_reactivates: renew the expired, inactive licC9 at time
1000, then a /check at time 2000 from a new machine is allowed. -/
theorem c9_witness :
    (check envPlain stC9r 2000 (.ok ⟨"AAAA-BBBB-CCCC", "mNew", ""⟩)).1.allow = true :=
  c9_renew_reactivates envAdm "K" stC9 1000 "aaaa-bbbb-cccc" licC9 envPlain 2000
    ⟨"AAAA-BBBB-CCCC", "mNew", ""⟩ ⟨"AAAA-BBBB-CCCC", 500, 31537000⟩ stC9r
    (by decide) (by decide) (by decide) (by rfl) (by decide) (by decide)
    (by decide) (by decide) (by decide) (by decide) (by decide)

/-- A device count is bounded by the row count. -/
theorem countDevices_le_length (ds : List LicenseDevice) (l : Nat) :
    countDevices ds l ≤ ds.length :=
  List.length_filter_le _ _

/-- Appending one device row adds one to exactly its own license count. -/
theorem countDevices_append_one (ds : List LicenseDevice) (d : LicenseDevice) (l : Nat) :
    countDevices (ds ++ [d]) l
      = countDevices ds l + (if d.license_id == l then 1 else 0) := by
  unfold countDevices
  rw [List.filter_append]
  by_cases h : (d.license_id == l) = true
  · simp [List.filter_cons, h]
  · simp [List.filter_cons, h]

/-- Deleting rows never increases any device count. -/
theorem countDevices_filter_le (p : LicenseDevice → Bool) (ds : List LicenseDevice)
    (l : Nat) : countDevices (ds.filter p) l ≤ countDevices ds l := by
  unfold countDevices
  induction ds with
  | nil => simp
  | cons d ds ih =>
    by_cases hp : p d = true
    · by_cases hl : (d.license_id == l) = true
      · simp only [List.filter_cons, hp, hl, if_pos, if_true, List.length_cons]
        omega
      · simp only [List.filter_cons, hp, hl, if_true, if_false, Bool.false_eq_true]
        simpa [hl] using ih
    · by_cases hl : (d.license_id == l) = true
      · simp only [List.filter_cons, hp, hl, Bool.false_eq_true, if_false, if_true,
          List.length_cons]
        omega
      · simp only [List.filter_cons, hp, hl, Bool.false_eq_true, if_false]
        exact ih

/-- The device stage never pushes a device count above the quota. -/
theorem deviceStage_quota_preserved (lic : License) (st : Store) (now : Int)
    (data : ReqData) (av ks : String) (bl : List String) (mid : String)
    (dbg : DebugInfo) (h : ∀ l, countDevices st.devices l ≤ MAX_DEVICES) :
    ∀ l, countDevices (deviceStage lic st now data av ks bl mid dbg).2.devices l
      ≤ MAX_DEVICES := by
  intro l
  unfold deviceStage
  split
  · exact h l
  · split
    · rw [finishCheck_snd]
      dsimp only
      rw [countDevices_updateLastSeen]
      exact h l
    · split
      · exact h l
      next hq =>
        rw [finishCheck_snd]
        dsimp only
        rw [countDevices_append_one]
        by_cases hl : (lic.id == l) = true
        · have hll : lic.id = l := by simpa using hl
          subst hll
          have := h lic.id
          simp only [hl, if_true]
          omega
        · simp only [hl, Bool.false_eq_true, if_false]
          have := h l
          omega

/-- The license stage never pushes a device count above the quota. -/
theorem licenseStage_quota_preserved (st : Store) (now : Int) (data : ReqData)
    (token mid av ks : String) (bl : List String) (dbg : DebugInfo)
    (h : ∀ l, countDevices st.devices l ≤ MAX_DEVICES) :
    ∀ l, countDevices (licenseStage st now data token mid av ks bl dbg).2.devices l
      ≤ MAX_DEVICES := by
  intro l
  unfold licenseStage
  split
  · exact h l
  · split
    · dsimp only
      split
      · exact h l
      · exact h l
    · exact deviceStage_quota_preserved _ _ _ _ _ _ _ _ _ h l

/-- A /check request never pushes a device count above the quota. -/
theorem check_quota_preserved (env : Env) (st : Store) (now : Int)
    (body : Except String ReqData)
    (h : ∀ l, countDevices st.devices l ≤ MAX_DEVICES) :
    ∀ l, countDevices (check env st now body).2.devices l ≤ MAX_DEVICES := by
  intro l
  cases body with
  | error e => exact h l
  | ok data =>
    unfold check
    dsimp only
    repeat' split
    all_goals first
      | exact h l
      | exact licenseStage_quota_preserved _ _ _ _ _ _ _ _ _ h l

/-- Any store a successful renew_license returns carries a filtered device list. -/
theorem renew_license_devices (env : Env) (k : String) (st : Store) (now : Int)
    (c : String) (r : RenewResponse × Store)
    (heq : renew_license env k st now c = .ok r) :
    ∃ p, r.2.devices = st.devices.filter p := by
  unfold renew_license at heq
  split at heq
  · simp at heq
  · simp only [] at heq
    split at heq
    · simp at heq
    · split at heq
      · simp at heq
      · injection heq with heq
        exact ⟨_, by rw [← heq]⟩

/-- Any store a successful reset_devices returns carries a filtered device list. -/
theorem reset_devices_devices (env : Env) (k : String) (st : Store) (c : String)
    (r : ResetResponse × Store)
    (heq : reset_devices env k st c = .ok r) :
    ∃ p, r.2.devices = st.devices.filter p := by
  unfold reset_devices at heq
  split at heq
  · simp at heq
  · simp only [] at heq
    split at heq
    · simp at heq
    · split at heq
      · simp at heq
      · injection heq with heq
        exact ⟨_, by rw [← heq]⟩

/-- No single request pushes a device count above the quota. -/
theorem applyOp_quota_preserved (st : Store) (op : Op)
    (h : ∀ l, countDevices st.devices l ≤ MAX_DEVICES) :
    ∀ l, countDevices (applyOp st op).devices l ≤ MAX_DEVICES := by
  intro l
  cases op with
  | checkReq env now body => exact check_quota_preserved env st now body h l
  | renewReq env k now c =>
    dsimp only [applyOp]
    split
    next r heq =>
      obtain ⟨p, hp⟩ := renew_license_devices env k st now c r heq
      rw [hp]
      exact le_trans (countDevices_filter_le p st.devices l) (h l)
    next heq => exact h l
  | resetReq env k c =>
    dsimp only [applyOp]
    split
    next r heq =>
      obtain ⟨p, hp⟩ := reset_devices_devices env k st c r heq
      rw [hp]
      exact le_trans (countDevices_filter_le p st.devices l) (h l)
    next heq => exact h l

/-- No request sequence pushes a device count above the quota. -/
theorem applyOps_quota_preserved (ops : List Op) :
    ∀ st : Store, (∀ l, countDevices st.devices l ≤ MAX_DEVICES) →
      ∀ l, countDevices (applyOps st ops).devices l ≤ MAX_DEVICES := by
  induction ops with
  | nil => exact fun st h l => h l
  | cons op ops ih =>
    intro st h l
    exact ih (applyOp st op) (applyOp_quota_preserved st op h) l

/-- C5: under any sequence of /check, /renew and /reset_devices requests the
device count of every license stays at most MAX_DEVICES = 2; concretely, after
machines m1 and m2 checked in under licQ the count is exactly 2, a /check from
a third machine m3 is denied with the quota reason and writes nothing, while
m1 and m2 keep being allowed. -/
theorem c5_device_quota_invariant :
    (∀ st : Store, (∀ l, countDevices st.devices l ≤ MAX_DEVICES) →
      ∀ ops : List Op, ∀ l, countDevices (applyOps st ops).devices l ≤ MAX_DEVICES) ∧
    countDevices stQ2.devices licQ.id = MAX_DEVICES ∧
    (check envPlain stQ2 0 (.ok (dataQ "m3"))).1.allow = false ∧
    (check envPlain stQ2 0 (.ok (dataQ "m3"))).1.reason =
      "This license is already in use on the maximum number of devices (2). If you changed computer, please contact the māyā team at mayahep.team@gmail.com." ∧
    (check envPlain stQ2 0 (.ok (dataQ "m3"))).2 = stQ2 ∧
    (check envPlain stQ2 0 (.ok (dataQ "m1"))).1.allow = true ∧
    (check envPlain stQ2 0 (.ok (dataQ "m2"))).1.allow = true := by
  refine ⟨fun st h ops l => applyOps_quota_preserved ops st h l, ?_⟩
  decide

/-- Witness for the quantified part of c5_device_quota_invariant: from stQ2, a
further quota-bounded request sequence keeps the count of licQ at most 2. -/
theorem c5_witness :
    countDevices (applyOps stQ2 [Op.checkReq envPlain 0 (.ok (dataQ "m3")),
      Op.resetReq envAdm "K" "QQQQ-QQQQ-QQQQ"]).devices licQ.id ≤ MAX_DEVICES :=
  c5_device_quota_invariant.1 stQ2
    (fun l => le_trans (countDevices_le_length stQ2.devices l)
      (by decide : stQ2.devices.length ≤ MAX_DEVICES))
    [Op.checkReq envPlain 0 (.ok (dataQ "m3")), Op.resetReq envAdm "K" "QQQQ-QQQQ-QQQQ"]
    licQ.id

/-- The scan step never changes a license code. -/
theorem scanStep_code (now sdl cutoff : Int) (lic : License) :
    (scanStep now sdl cutoff lic).1.code = lic.code := by
  unfold scanStep
  repeat' split
  all_goals rfl

/-- License lookup commutes with the per-license scan step. -/
theorem findLicense_scan_map (ls : List License) (now sdl cutoff : Int) (code : String) :
    findLicense (ls.map (fun l => (scanStep now sdl cutoff l).1)) code
      = (findLicense ls code).map (fun l => (scanStep now sdl cutoff l).1) := by
  induction ls with
  | nil => rfl
  | cons l ls ih =>
    unfold findLicense at ih ⊢
    simp only [List.map_cons, List.find?_cons]
    by_cases h : (l.code == code) = true
    · have h2 : ((scanStep now sdl cutoff l).1.code == code) = true := by
        rw [scanStep_code]; exact h
      simp [h, h2]
    · have h2 : ((scanStep now sdl cutoff l).1.code == code) = false := by
        rw [scanStep_code]; simpa using h
      rw [Bool.not_eq_true] at h
      simp [h, h2, ih]

/-- The scan step on an active, already expired candidate. -/
theorem scanStep_expired (now sdl cutoff : Int) (lic : License)
    (hact : lic.active = true) (hexp : lic.expires_at ≤ now)
    (hcut : lic.expires_at ≤ cutoff) :
    scanStep now sdl cutoff lic =
      ({ lic with active := false },
       [⟨"expired", lic.email, lic.code, lic.expires_at⟩]) := by
  unfold scanStep
  rw [if_pos ⟨hact, hcut⟩, if_pos hexp]

/-- The scan step on an active candidate expiring exactly on day today+7. -/
theorem scanStep_soon (now sdl cutoff : Int) (lic : License)
    (hact : lic.active = true) (hnexp : ¬ lic.expires_at ≤ now)
    (hdate : Int.fdiv lic.expires_at 86400 = sdl)
    (hcut : lic.expires_at ≤ cutoff) :
    scanStep now sdl cutoff lic =
      (lic, [⟨"expires_soon", lic.email, lic.code, lic.expires_at⟩]) := by
  unfold scanStep
  rw [if_pos ⟨hact, hcut⟩, if_neg hnexp, if_pos hdate]

/-- Any time is at most the cutoff midnight opening day today+8. -/
theorem now_le_cutoff (now : Int) : now ≤ (Int.fdiv now 86400 + 8) * 86400 := by
  rw [Int.fdiv_eq_ediv _ (by omega : (0 : Int) ≤ 86400)]
  omega

/-- An expiry on day today+7 lies below the cutoff. -/
theorem date_le_cutoff (now e : Int)
    (hdate : Int.fdiv e 86400 = Int.fdiv now 86400 + 7) :
    e ≤ (Int.fdiv now 86400 + 8) * 86400 := by
  have h1 : Int.fdiv e 86400 = e / 86400 :=
    Int.fdiv_eq_ediv _ (by omega : (0 : Int) ≤ 86400)
  have h2 : Int.fdiv now 86400 = now / 86400 :=
    Int.fdiv_eq_ediv _ (by omega : (0 : Int) ≤ 86400)
  rw [h1, h2] at hdate
  rw [h2]
  omega

/-- The licenses after a scan are the per-license scan step, mapped. -/
theorem scan_store_licenses (st : Store) (now : Int) :
    (scan_licenses_and_notify st now).store.licenses
      = st.licenses.map (fun l =>
          (scanStep now (Int.fdiv now 86400 + 7) ((Int.fdiv now 86400 + 8) * 86400) l).1) :=
  rfl

/-- The notifications of a scan are the per-license ones, concatenated in order. -/
theorem scan_notifs (st : Store) (now : Int) :
    (scan_licenses_and_notify st now).notifs
      = st.licenses.flatMap (fun l =>
          (scanStep now (Int.fdiv now 86400 + 7) ((Int.fdiv now 86400 + 8) * 86400) l).2) :=
  rfl

/-- A license found inactive denies with the expired reason and writes nothing. -/
theorem licenseStage_inactive (st : Store) (now : Int) (data : ReqData)
    (token mid av ks : String) (bl : List String) (dbg : DebugInfo) (lic : License)
    (hfl : findLicense st.licenses token = some lic)
    (hina : lic.active = false) :
    licenseStage st now data token mid av ks bl dbg =
      (⟨false, "License expired. Please renew your license key.", 3600, some dbg⟩, st) := by
  unfold licenseStage
  rw [hfl]
  dsimp only
  rw [if_pos (Or.inl hina)]
  rw [if_neg (by simp [hina])]

/-- C7: the expiry scan marks every active, already expired license inactive
and emits an expired notification for it, after which a /check with its code
denies with the expired reason; and an active, not yet expired license yields
an expires_soon notification exactly when its expiry date equals today+7, so
the reminder fires on that single day only. -/
theorem c7_expiry_scan (st : Store) (now : Int) :
    (∀ lic : License,
      findLicense st.licenses lic.code = some lic →
      lic.active = true → lic.expires_at ≤ now →
        findLicense (scan_licenses_and_notify st now).store.licenses lic.code
          = some { lic with active := false } ∧
        (⟨"expired", lic.email, lic.code, lic.expires_at⟩ : Notif)
          ∈ (scan_licenses_and_notify st now).notifs ∧
        (∀ (env2 : Env) (now2 : Int) (data : ReqData),
          envKillSwitch env2 ≠ "1" →
          ¬(pyStrip data.machine_id ≠ "" ∧ pyStrip data.machine_id ∈ envBlocked env2) →
          ¬(envAppVersion env2 ≠ "" ∧ pyStrip data.version ≠ "" ∧
              pyStrip data.version ≠ envAppVersion env2) →
          ¬(pyStrip data.token ≠ "" ∧ pyStrip data.token ∈ env2.allowed_tokens) →
          pyStrip data.token = lic.code → lic.code ≠ "" →
          (check env2 (scan_licenses_and_notify st now).store now2 (.ok data)).1.allow
              = false ∧
          (check env2 (scan_licenses_and_notify st now).store now2 (.ok data)).1.reason
              = "License expired. Please renew your license key.")) ∧
    (∀ n ∈ (scan_licenses_and_notify st now).notifs, n.event = "expires_soon" →
      ∃ lic, lic ∈ st.licenses ∧ lic.active = true ∧ now < lic.expires_at ∧
        Int.fdiv lic.expires_at 86400 = Int.fdiv now 86400 + 7 ∧
        n = ⟨"expires_soon", lic.email, lic.code, lic.expires_at⟩) ∧
    (∀ lic, lic ∈ st.licenses → lic.active = true → now < lic.expires_at →
      Int.fdiv lic.expires_at 86400 = Int.fdiv now 86400 + 7 →
      (⟨"expires_soon", lic.email, lic.code, lic.expires_at⟩ : Notif)
        ∈ (scan_licenses_and_notify st now).notifs) := by
  refine ⟨?_, ?_, ?_⟩
  · intro lic hfl hact hexp
    have hcut : lic.expires_at ≤ (Int.fdiv now 86400 + 8) * 86400 :=
      le_trans hexp (now_le_cutoff now)
    have hstep := scanStep_expired now (Int.fdiv now 86400 + 7)
      ((Int.fdiv now 86400 + 8) * 86400) lic hact hexp hcut
    have hmark : findLicense (scan_licenses_and_notify st now).store.licenses lic.code
        = some { lic with active := false } := by
      rw [scan_store_licenses, findLicense_scan_map, hfl, Option.map_some', hstep]
    refine ⟨hmark, ?_, ?_⟩
    · rw [scan_notifs]
      refine List.mem_flatMap.mpr ⟨lic, List.mem_of_find?_eq_some hfl, ?_⟩
      rw [hstep]
      exact List.mem_singleton.mpr rfl
    · intro env2 now2 data hk hb hv ha htok hcode
      have hte : pyStrip data.token ≠ "" := by rw [htok]; exact hcode
      rw [check_eq_licenseStage env2 _ now2 data hk hb hv ha hte]
      rw [licenseStage_inactive _ now2 data _ _ _ _ _ _
        { lic with active := false } (by rw [htok]; exact hmark) rfl]
      exact ⟨rfl, rfl⟩
  · intro n hn hev
    rw [scan_notifs] at hn
    obtain ⟨lic, hmem, hn2⟩ := List.mem_flatMap.mp hn
    unfold scanStep at hn2
    split at hn2
    next hcand =>
      split at hn2
      next hexp =>
        rw [List.mem_singleton] at hn2
        subst hn2
        exact absurd (show "expired" = "expires_soon" from hev) (by decide)
      next hexp =>
        split at hn2
        next hdate =>
          rw [List.mem_singleton] at hn2
          subst hn2
          exact ⟨lic, hmem, hcand.1, by omega, hdate, rfl⟩
        next => simp at hn2
    next => simp at hn2
  · intro lic hmem hact hexp hdate
    rw [scan_notifs]
    refine List.mem_flatMap.mpr ⟨lic, hmem, ?_⟩
    rw [scanStep_soon now (Int.fdiv now 86400 + 7) ((Int.fdiv now 86400 + 8) * 86400)
      lic hact (by omega) hdate (date_le_cutoff now lic.expires_at hdate)]
    exact List.mem_singleton.mpr rfl

/-- Witness for c7_expiry_scan on stC7 at scan time 950400: the expired licE is
deactivated, notified, and denied afterwards; licS sits exactly on day
today+7 and is notified expires_soon. -/
theorem c7_witness :
    (findLicense (scan_licenses_and_notify stC7 950400).store.licenses licE.code
        = some { licE with active := false } ∧
      (⟨"expired", licE.email, licE.code, licE.expires_at⟩ : Notif)
        ∈ (scan_licenses_and_notify stC7 950400).notifs ∧
      (check envPlain (scan_licenses_and_notify stC7 950400).store 0
          (.ok ⟨"EEEE", "m1", ""⟩)).1.allow = false ∧
      (check envPlain (scan_licenses_and_notify stC7 950400).store 0
          (.ok ⟨"EEEE", "m1", ""⟩)).1.reason
        = "License expired. Please renew your license key.") ∧
    (∃ lic, lic ∈ stC7.licenses ∧ lic.active = true ∧ (950400 : Int) < lic.expires_at ∧
      Int.fdiv lic.expires_at 86400 = Int.fdiv 950400 86400 + 7 ∧
      (⟨"expires_soon", "s@e.com", "SSSS", 1555300⟩ : Notif)
        = ⟨"expires_soon", lic.email, lic.code, lic.expires_at⟩) ∧
    (⟨"expires_soon", licS.email, licS.code, licS.expires_at⟩ : Notif)
      ∈ (scan_licenses_and_notify stC7 950400).notifs := by
  have h1 := (c7_expiry_scan stC7 950400).1 licE (by decide) (by decide) (by decide)
  have h3 := (c7_expiry_scan stC7 950400).2.2 licS (by decide) (by decide)
    (by decide) (by decide)
  have h2 := (c7_expiry_scan stC7 950400).2.1
    ⟨"expires_soon", "s@e.com", "SSSS", 1555300⟩ (by decide) (by decide)
  have hchk := h1.2.2 envPlain 0 ⟨"EEEE", "m1", ""⟩ (by decide) (by decide)
    (by decide) (by decide) (by decide) (by decide)
  exact ⟨⟨h1.1, h1.2.1, hchk.1, hchk.2⟩, h2, h3⟩

/-- A response that is not structurally successful yields a failure verdict. -/
theorem post_check_verdict_of_not_ok (r : PostResult) (h : isStructOk r = false) :
    (post_check_verdict r).1 = false := by
  cases r with
  | netError m => rfl
  | httpError s => rfl
  | badJson => rfl
  | jsonOk a re t => exact absurd h (by simp [isStructOk])

/-- The post-loop fallthrough of check_online always denies. -/
theorem finishVerdict_allow (cfg : VerifyCfg) (e : Nat) (lr : String) (lt : Int) :
    (finishVerdict cfg e lr lt).1.1 = false := by
  unfold finishVerdict
  split <;> rfl

/-- With no structurally successful attempt the retry loop always denies. -/
theorem checkLoop_allow_false (cfg : VerifyCfg) (tr : Nat → PostAttempt)
    (hns : ∀ i, isStructOk (tr i).result = false) :
    ∀ (fuel i e : Nat) (lr : String) (lt : Int),
      (checkLoop cfg tr fuel i e lr lt).1.1 = false := by
  intro fuel
  induction fuel with
  | zero => exact fun i e lr lt => finishVerdict_allow cfg e lr lt
  | succ fuel ih =>
    intro i e lr lt
    unfold checkLoop
    split
    · exact finishVerdict_allow cfg e lr lt
    · dsimp only
      rw [if_neg (by

          rw [post_check_verdict_of_not_ok _ (hns i)]
          exact Bool.false_ne_true)]
      exact ih _ _ _ _

/-- The retry loop finishes at most one attempt past the deadline: every
attempt it starts begins strictly before the deadline and lasts at most D. -/
theorem checkLoop_elapsed_le (cfg : VerifyCfg) (tr : Nat → PostAttempt) (D : Nat)
    (hd : ∀ i, (tr i).dur ≤ D) :
    ∀ (fuel i e : Nat) (lr : String) (lt : Int), e ≤ cfg.TOTAL_DEADLINE + D →
      (checkLoop cfg tr fuel i e lr lt).2 ≤ cfg.TOTAL_DEADLINE + D := by
  intro fuel
  induction fuel with
  | zero =>
    intro i e lr lt hle
    unfold checkLoop finishVerdict
    split <;> exact hle
  | succ fuel ih =>
    intro i e lr lt hle
    unfold checkLoop
    split
    next =>
      unfold finishVerdict
      split <;> exact hle
    next hdl =>
      dsimp only
      have he : e < cfg.TOTAL_DEADLINE := by
        unfold deadline_remaining at hdl
        omega
      have hdi := hd i
      split
      · dsimp only
        omega
      · apply ih
        have hmin := Nat.min_le_right (cfg.BACKOFF * 2 ^ i)
          (deadline_remaining cfg (e + (tr i).dur))
        unfold deadline_remaining at hmin ⊢
        omega

/-- The warm-up finishes at most one attempt past the deadline. -/
theorem warmupLoop_elapsed_le (cfg : VerifyCfg) (tr : Nat → HealthAttempt) (D : Nat)
    (hd : ∀ i, (tr i).dur ≤ D) :
    ∀ (fuel i e : Nat), e ≤ cfg.TOTAL_DEADLINE + D →
      warmupLoop cfg tr fuel i e ≤ cfg.TOTAL_DEADLINE + D := by
  intro fuel
  induction fuel with
  | zero => exact fun i e hle => hle
  | succ fuel ih =>
    intro i e hle
    unfold warmupLoop
    split
    next => exact hle
    next hdl =>
      dsimp only
      have he : e < cfg.TOTAL_DEADLINE := by
        unfold deadline_remaining at hdl
        omega
      have hdi := hd i
      split
      · omega
      · apply ih
        have hmin := Nat.min_le_right (cfg.BACKOFF * 2 ^ i)
          (deadline_remaining cfg (e + (tr i).dur))
        unfold deadline_remaining at hmin ⊢
        omega

/-- C8: when no attempt ever yields a structurally successful response and each
network call respects its connect and read timeouts, check_online returns a
denial (fail-closed) and its total elapsed time is at most the total deadline
plus one connect plus one read timeout, the slack one in-flight attempt can
add; in FAST mode that is 6 s + 2 s + 3 s. -/
theorem c8_fail_closed_deadline (cfg : VerifyCfg) (wtr : Nat → HealthAttempt)
    (ctr : Nat → PostAttempt)
    (hns : ∀ i, isStructOk (ctr i).result = false)
    (hwd : ∀ i, (wtr i).dur ≤ cfg.CONNECT + cfg.READ)
    (hcd : ∀ i, (ctr i).dur ≤ cfg.CONNECT + cfg.READ) :
    (check_online cfg wtr ctr).1.1 = false ∧
    (check_online cfg wtr ctr).2 ≤ cfg.TOTAL_DEADLINE + cfg.CONNECT + cfg.READ := by
  unfold check_online
  constructor
  · exact checkLoop_allow_false cfg ctr hns _ _ _ _ _
  · have hw := warmupLoop_elapsed_le cfg wtr (cfg.CONNECT + cfg.READ) hwd
      cfg.WARMUP_TRIES 0 0 (Nat.zero_le _)
    have hc := checkLoop_elapsed_le cfg ctr (cfg.CONNECT + cfg.READ) hcd
      cfg.CHECK_TRIES 0 (warmup cfg wtr) "Timeout" 5 (by unfold warmup; omega)
    omega

/-- Witness for c8_fail_closed_deadline: FAST mode against a server that never
responds (every call a five-second network error). -/
theorem c8_witness :
    (check_online FAST wtrC8 ctrC8).1.1 = false ∧
    (check_online FAST wtrC8 ctrC8).2 ≤ FAST.TOTAL_DEADLINE + FAST.CONNECT + FAST.READ :=
  c8_fail_closed_deadline FAST wtrC8 ctrC8 (fun _ => rfl) (fun _ => Nat.le_refl _)
    (fun _ => Nat.le_refl _)

/-- C1 counterexample: in BALANCED mode (CHECK_TRIES = 2) the first attempt is
structurally successful with a clean deny verdict, yet check_online does not
return that verdict: it retries and returns the allow of the second attempt,
so a clean deny is neither terminal nor returned immediately. -/
theorem c1_counterexample :
    isStructOk (ctrC1 0).result = true ∧
    post_check_verdict (ctrC1 0).result = (false, "Denied by server", 3600) ∧
    (check_online BALANCED wtrC1 ctrC1).1 = (true, "OK", 60) := by decide

/-- C1 (amended): the retry loop of check_online returns immediately only on a
structurally successful response with allow = true; a structurally successful
deny is treated like a failed attempt: its reason and TTL replace the last
recorded ones and, while attempts remain, the loop sleeps and retries, the
recorded deny being returned only after the attempt budget and only when the
deadline has not expired. -/
theorem c1_amended_clean_deny_retried :
    (∀ (cfg : VerifyCfg) (tr : Nat → PostAttempt) (fuel i e : Nat) (lr : String)
        (lt : Int) (r : String) (t : Int) (d : Nat),
      tr i = ⟨.jsonOk true r t, d⟩ → deadline_remaining cfg e ≠ 0 →
      checkLoop cfg tr (fuel + 1) i e lr lt = ((true, r, t), e + d)) ∧
    (∀ (cfg : VerifyCfg) (tr : Nat → PostAttempt) (fuel i e : Nat) (lr : String)
        (lt : Int) (r : String) (t : Int) (d : Nat),
      tr i = ⟨.jsonOk false r t, d⟩ → deadline_remaining cfg e ≠ 0 →
      checkLoop cfg tr (fuel + 1) i e lr lt =
        checkLoop cfg tr fuel (i + 1)
          (e + d + min (cfg.BACKOFF * 2 ^ i) (deadline_remaining cfg (e + d))) r t) := by
  constructor
  · intro cfg tr fuel i e lr lt r t d htr hdl
    conv_lhs => unfold checkLoop
    rw [if_neg hdl, htr]
    dsimp only [post_check_verdict]
    rw [if_pos rfl]
  · intro cfg tr fuel i e lr lt r t d htr hdl
    conv_lhs => unfold checkLoop
    rw [if_neg hdl, htr]
    dsimp only [post_check_verdict]
    rw [if_neg (by exact Bool.false_ne_true)]

/-- Witness for c1_amended_clean_deny_retried: an immediate return on a first
allow, and a first clean deny that recurses into a further attempt. -/
theorem c1_witness :
    checkLoop FAST ctrOK (0 + 1) 0 0 "Timeout" 5 = ((true, "OK", 60), 0 + 10) ∧
    checkLoop BALANCED ctrC1 (1 + 1) 0 5 "Timeout" 5 =
      checkLoop BALANCED ctrC1 1 (0 + 1)
        (5 + 10 + min (BALANCED.BACKOFF * 2 ^ 0) (deadline_remaining BALANCED (5 + 10)))
        "Denied by server" 3600 :=
  ⟨c1_amended_clean_deny_retried.1 FAST ctrOK 0 0 0 "Timeout" 5 "OK" 60 10 rfl
      (by decide),
   c1_amended_clean_deny_retried.2 BALANCED ctrC1 1 0 5 "Timeout" 5 "Denied by server"
      3600 10 rfl (by decide)⟩

end Maya
